import Mathlib

/-!
Stream lifecycle manager: segment window and pipeline start/stop.

A shallow embedding of `backend/segmenter.go` (the rolling segment window and
its playlist text), of `pkg/stream/stream.go` (the two named pipelines, their
external processes and the coordinator teardown) and of `backend/stream.go` (the
manager over a memory-mapped file), followed by the properties established about
them.

Conventions of the embedding.

* Go `int` and `time.Duration` values are mathematical integers (`Int`); the
  counters involved only ever grow by one per call and stay far below `2^63`.
* A method with a pointer receiver takes the receiver's value and returns the
  receiver's value after the call next to the Go result.
* A Go `error` is an `Option String`: `none` is `nil`, `some msg` carries the
  text of the error.
* Writes to standard output (`fmt.Printf`) are not part of the modelled state.
-/

namespace HLS

/-! ## `backend/segmenter.go` -/

/-- One nanosecond-resolution second, `time.Second`. -/
def Second : Int := 1000000000

/-- Segment descriptor (`type Segment struct`). `Data` is the byte slice. -/
structure Segment where
  Index : Int
  StartTime : Int
  Duration : Int
  Data : List (Fin 256)
deriving DecidableEq, Repr

/-- Segmenter state (`type HLSSegmenter struct`). -/
structure HLSSegmenter where
  segmentDuration : Int
  segments : List Segment
  currentIndex : Int
deriving DecidableEq, Repr

/-- Constructor `NewHLSSegmenter`. -/
def NewHLSSegmenter : HLSSegmenter :=
  { segmentDuration := 2 * Second
    segments := []
    currentIndex := 0 }

/-- Method `CreateSegment`: the receiver after the call and the segment returned. -/
def HLSSegmenter.CreateSegment (h : HLSSegmenter) (data : List (Fin 256)) (startTime : Int) :
    HLSSegmenter × Segment :=
  let segment : Segment :=
    { Index := h.currentIndex
      StartTime := startTime
      Duration := h.segmentDuration
      Data := data }
  let segments := h.segments ++ [segment]
  let currentIndex := h.currentIndex + 1
  let segments := if segments.length > 6 then segments.drop 1 else segments
  ({ h with segments := segments, currentIndex := currentIndex }, segment)

/-- Method `GetSegment`: the first retained segment with the given index. -/
def HLSSegmenter.GetSegment (h : HLSSegmenter) (index : Int) : Option Segment :=
  h.segments.find? (fun seg => seg.Index == index)

/-- Verb `%d` of `fmt.Sprintf` on an `int`. -/
def fmtD (i : Int) : String := toString i

/-- Three decimal digits, zero padded (argument below 1000). -/
def pad3 (n : Nat) : String :=
  (if n < 100 then "0" else "") ++ (if n < 10 then "0" else "") ++ toString n

/-- Verb `%.3f` of `fmt.Sprintf` applied to `d.Seconds()` for a duration of `d`
nanoseconds: the value in seconds rounded to thousandths, ties to even. The
rounding is done on the exact quotient; it agrees with the floating-point
computation of the library on every whole number of seconds, which is what
`CreateSegment` stores. -/
def fmtSeconds3 (d : Int) : String :=
  let a := d.natAbs
  let q := a / 1000000
  let r := a % 1000000
  let ms := if r > 500000 ∨ (r = 500000 ∧ q % 2 = 1) then q + 1 else q
  (if d < 0 then "-" else "") ++ toString (ms / 1000) ++ "." ++ pad3 (ms % 1000)

/-- Method `GetPlaylist`: the receiver after the call and the playlist text. -/
def HLSSegmenter.GetPlaylist (h : HLSSegmenter) : HLSSegmenter × String :=
  let playlist := "#EXTM3U\n"
  let playlist := playlist ++ "#EXT-X-VERSION:3\n"
  let playlist := playlist ++ "#EXT-X-TARGETDURATION:2\n"
  let playlist := playlist ++
    ("#EXT-X-MEDIA-SEQUENCE:" ++ fmtD (h.currentIndex - (h.segments.length : Int)) ++ "\n")
  let playlist := h.segments.foldl
    (fun playlist seg =>
      (playlist ++ ("#EXTINF:" ++ fmtSeconds3 seg.Duration ++ ",\n")) ++
        ("segment_" ++ fmtD seg.Index ++ ".ts\n"))
    playlist
  (h, playlist)

/-- The segmenter reached from a fresh one by a sequence of `CreateSegment`
calls, each given by its `data` and `startTime` arguments. -/
def afterCalls (calls : List (List (Fin 256) × Int)) : HLSSegmenter :=
  calls.foldl (fun h c => (h.CreateSegment c.1 c.2).1) NewHLSSegmenter

/-- The last `min n 6` of the indices `0 .. n-1`, in increasing order. -/
def lastIndices (n : Nat) : List Int :=
  (List.range' (n - min n 6) (min n 6)).map Int.ofNat

/-- The text made of the given lines, each one terminated by a newline. -/
def unlines : List String → String
  | [] => ""
  | l :: ls => (l ++ "\n") ++ unlines ls

/-! ## `pkg/stream/stream.go` -/

/-- Outcome of `os.Stat` as `StartStream` tells the cases apart. -/
inductive StatResult where
  | ok
  | notExist
  | failed (msg : String)
deriving DecidableEq, Repr

/-- What the operating system answers to the calls made by `StartStream`: path
resolution, file lookup, working directory, and for each fallible call the error
it reports (`none` when it succeeds). -/
structure Env where
  abs : String → Except String String
  stat : String → StatResult
  getwd : Except String String
  mkdirAllErr : String → Option String
  openErr : String → Option String
  readdirErr : String → Option String
  removeAllErr : String → Option String
  startErr : List String → Option String

/-- Whether an external process is still running or has exited and been waited for. -/
inductive ProcStatus where
  | running
  | finished
deriving DecidableEq, Repr

/-- An external process launched through `exec.Cmd.Start`. -/
structure Proc where
  args : List String
  dir : String
  status : ProcStatus
deriving DecidableEq, Repr

/-- State outside the program: the names found in each directory and the table of
processes launched so far (a process is identified by its position). -/
structure Sys where
  entries : String → List String
  procs : List Proc

/-- Command value `exec.Cmd`: program, arguments, working directory and the
`Process` field, which is `nil` until `Start` has succeeded. -/
structure Cmd where
  path : String
  args : List String
  dir : String
  process : Option Nat
deriving DecidableEq, Repr

/-- Buffer `VideoBuffer` (the lock is not modelled). -/
structure VideoBuffer where
  data : List (Fin 256)
  size : Int
deriving DecidableEq, Repr

/-- Record `StreamState`. -/
structure StreamState where
  currentSegment : Int
  segmentSize : Int
  timestamp : Int
deriving DecidableEq, Repr

/-- Pipeline `HLSStream`; the shared buffer is held by the manager and `cmd` is
`none` for a `nil` pointer. -/
structure HLSStream where
  segmenter : HLSSegmenter
  state : StreamState
  isActive : Bool
  cmd : Option Cmd
deriving DecidableEq, Repr

/-- Coordinator `StreamManager`; `stopChanClosed` records whether `stopChan` has
been closed. The wait group never has a member added. -/
structure StreamManager where
  buffer : VideoBuffer
  playStream : HLSStream
  pushStream : HLSStream
  stopChanClosed : Bool
deriving DecidableEq, Repr

/-- Which of the two pipelines of the manager a local `stream` pointer designates. -/
inductive Which where
  | play
  | push
deriving DecidableEq, Repr

/-- Read through a `stream` pointer. -/
def StreamManager.get (sm : StreamManager) : Which → HLSStream
  | .play => sm.playStream
  | .push => sm.pushStream

/-- Write through a `stream` pointer. -/
def StreamManager.set (sm : StreamManager) (w : Which) (s : HLSStream) : StreamManager :=
  match w with
  | .play => { sm with playStream := s }
  | .push => { sm with pushStream := s }

/-- Constructor `NewStreamManager`: it cannot fail. -/
def NewStreamManager (_filepath : String) : StreamManager × Option String :=
  let buffer : VideoBuffer := { data := [], size := 0 }
  let playStream : HLSStream :=
    { segmenter := NewHLSSegmenter, state := ⟨0, 0, 0⟩, isActive := false, cmd := none }
  let pushStream : HLSStream :=
    { segmenter := NewHLSSegmenter, state := ⟨0, 0, 0⟩, isActive := false, cmd := none }
  ({ buffer := buffer, playStream := playStream, pushStream := pushStream,
     stopChanClosed := false }, none)

/-- Path join `filepath.Join` on the joins made here: the elements separated by
a slash (the working directory is a cleaned absolute path other than the root). -/
def filepathJoin (elems : List String) : String :=
  String.intercalate "/" elems

/-- The argument list handed to the transcoder, the same for both pipelines. -/
def ffmpegArgsFor (absPath outputPath : String) : List String :=
  [ "-re",
    "-i", absPath,
    "-c:v", "libx264",
    "-preset", "ultrafast",
    "-tune", "zerolatency",
    "-c:a", "aac",
    "-b:v", "2000k",
    "-b:a", "128k",
    "-f", "hls",
    "-hls_time", "2",
    "-hls_list_size", "6",
    "-hls_flags", "delete_segments+omit_endlist",
    "-hls_segment_type", "mpegts",
    "-hls_segment_filename", filepathJoin [outputPath, "segment_%d.ts"],
    filepathJoin [outputPath, "playlist.m3u8"] ]

/-- The loop of `cleanDirectory`: remove the names one by one, stopping at the
first removal that fails. -/
def cleanLoop (env : Env) (dir : String) : Sys → List String → Sys × Option String
  | sys, [] => (sys, none)
  | sys, name :: rest =>
    match env.removeAllErr (filepathJoin [dir, name]) with
    | some e => (sys, some e)
    | none =>
      cleanLoop env dir
        { sys with entries := fun d => if d = dir then (sys.entries d).erase name else sys.entries d }
        rest

/-- Function `cleanDirectory`: open the directory, read its names, remove each. -/
def cleanDirectory (env : Env) (sys : Sys) (dir : String) : Sys × Option String :=
  match env.openErr dir with
  | some e => (sys, some e)
  | none =>
    match env.readdirErr dir with
    | some e => (sys, some e)
    | none => cleanLoop env dir sys (sys.entries dir)

/-- Method `StartStream`: the manager and the outside state after the call, and
the error returned. -/
def StartStream (env : Env) (sm : StreamManager) (sys : Sys) (name videoPath : String) :
    StreamManager × Sys × Option String :=
  match env.abs videoPath with
  | .error e => (sm, sys, some ("failed to get absolute path: " ++ e))
  | .ok absPath =>
    match env.stat absPath with
    | .notExist => (sm, sys, some ("video file not found: " ++ absPath))
    | .failed e => (sm, sys, some ("error checking file: " ++ e))
    | .ok =>
      match env.getwd with
      | .error e => (sm, sys, some ("failed to get working directory: " ++ e))
      | .ok workDir =>
        let target : Option (Which × String) :=
          if name = "play" then some (.play, filepathJoin [workDir, "hls", "play"])
          else if name = "push" then some (.push, filepathJoin [workDir, "hls", "push"])
          else none
        match target with
        | none => (sm, sys, some ("unknown stream type: " ++ name))
        | some (stream, outputPath) =>
          match env.mkdirAllErr outputPath with
          | some e => (sm, sys, some ("failed to create output directory: " ++ e))
          | none =>
            match cleanDirectory env sys outputPath with
            | (sys1, some e) => (sm, sys1, some ("failed to clean output directory: " ++ e))
            | (sys1, none) =>
              let ffmpegArgs : List String :=
                if name = "play" then ffmpegArgsFor absPath outputPath
                else if name = "push" then ffmpegArgsFor absPath outputPath
                else []
              if (sm.get stream).isActive then
                (sm, sys1, some ("stream " ++ name ++ " is already active"))
              else
                let cmd : Cmd :=
                  { path := "ffmpeg", args := ffmpegArgs, dir := workDir, process := none }
                match env.startErr ffmpegArgs with
                | some e =>
                  (sm.set stream { sm.get stream with cmd := some cmd }, sys1,
                    some ("failed to start ffmpeg: " ++ e))
                | none =>
                  let pid := sys1.procs.length
                  let sys2 : Sys :=
                    { sys1 with procs := sys1.procs ++ [{ args := ffmpegArgs, dir := workDir,
                                                          status := .running }] }
                  (sm.set stream
                    { sm.get stream with cmd := some { cmd with process := some pid },
                                         isActive := true },
                    sys2, none)

/-- Call `Process.Kill`: it reports an error when the process has already
finished (or is not a process of the table), and otherwise delivers the signal. -/
def kill (sys : Sys) (pid : Nat) : Option String :=
  match sys.procs.get? pid with
  | some p => if p.status = .finished then some "os: process already finished" else none
  | none => some "os: process already finished"

/-- Call `Cmd.Wait` returning: the process has exited and is marked finished. -/
def reap (sys : Sys) (pid : Nat) : Sys :=
  { sys with procs := sys.procs.modify (fun p => { p with status := .finished }) pid }

/-- Method `StopStream`: the manager and the outside state after the call, and
the error returned. -/
def StopStream (sm : StreamManager) (sys : Sys) (name : String) :
    StreamManager × Sys × Option String :=
  let target : Option Which :=
    if name = "play" then some .play
    else if name = "push" then some .push
    else none
  match target with
  | none => (sm, sys, some ("unknown stream type: " ++ name))
  | some stream =>
    if !(sm.get stream).isActive then (sm, sys, none)
    else
      match (sm.get stream).cmd with
      | none => (sm.set stream { sm.get stream with isActive := false }, sys, none)
      | some c =>
        match c.process with
        | none => (sm.set stream { sm.get stream with isActive := false }, sys, none)
        | some pid =>
          match kill sys pid with
          | some e => (sm, sys, some ("failed to kill ffmpeg: " ++ e))
          | none =>
            (sm.set stream { sm.get stream with cmd := none, isActive := false },
              reap sys pid, none)

/-- The watcher goroutine started by `StartStream`, at the moment `Wait` returns
for process `pid` of pipeline `stream`: the process is marked finished; when
`Wait` reports an error and the pipeline is still marked active a diagnostic is
printed. The pipeline itself is not written to. (The goroutine is taken to have
read `stream.cmd` while it still held the command of `pid`.) -/
def watcher (sm : StreamManager) (sys : Sys) (stream : Which) (pid : Nat)
    (waitErr : Option String) : StreamManager × Sys :=
  let sys1 := reap sys pid
  match waitErr with
  | some _ => if (sm.get stream).isActive then (sm, sys1) else (sm, sys1)
  | none => (sm, sys1)

/-- How a call of `Close` ends: it returns an error value, or it panics. -/
inductive CloseResult where
  | returned (err : Option String)
  | panicked (msg : String)
deriving DecidableEq, Repr

/-- Method `Close`: stop "play", stop "push", close the stop channel, wait for
the (empty) wait group. Closing a closed channel panics. -/
def Close (sm : StreamManager) (sys : Sys) : StreamManager × Sys × CloseResult :=
  match StopStream sm sys "play" with
  | (sm1, sys1, some err) => (sm1, sys1, .returned (some err))
  | (sm1, sys1, none) =>
    match StopStream sm1 sys1 "push" with
    | (sm2, sys2, some err) => (sm2, sys2, .returned (some err))
    | (sm2, sys2, none) =>
      if sm2.stopChanClosed then (sm2, sys2, .panicked "close of closed channel")
      else ({ sm2 with stopChanClosed := true }, sys2, .returned none)

/-- One step of a run of the manager: a start request, a stop request, or a
watcher observing the exit of a process. -/
inductive Action where
  | start (env : Env) (name videoPath : String)
  | stop (name : String)
  | exit (stream : Which) (pid : Nat) (waitErr : Option String)

/-- Effect of one step on the manager and the outside state. -/
def Action.apply (st : StreamManager × Sys) : Action → StreamManager × Sys
  | .start env name videoPath =>
    let r := StartStream env st.1 st.2 name videoPath
    (r.1, r.2.1)
  | .stop name =>
    let r := StopStream st.1 st.2 name
    (r.1, r.2.1)
  | .exit stream pid waitErr => watcher st.1 st.2 stream pid waitErr

/-- A run from a freshly made manager: the steps applied in order. -/
def runFrom (sys : Sys) (acts : List Action) : StreamManager × Sys :=
  acts.foldl Action.apply ((NewStreamManager "").1, sys)

/-- An environment in which every call succeeds and exactly one video file,
`/srv/videos/a.mp4`, exists; the working directory is `/srv`. -/
def sampleEnv : Env :=
  { abs := fun p => .ok p
    stat := fun p => if p = "/srv/videos/a.mp4" then .ok else .notExist
    getwd := .ok "/srv"
    mkdirAllErr := fun _ => none
    openErr := fun _ => none
    readdirErr := fun _ => none
    removeAllErr := fun _ => none
    startErr := fun _ => none }

/-- Outside state in which nothing has been launched and the output directories
are empty. -/
def emptySys : Sys :=
  { entries := fun _ => [], procs := [] }

/-- The playlist lines of the retained segments with the given indices: for
each index the duration line and the file-name line. -/
def entryLines : List Int → List String
  | [] => []
  | i :: is => "#EXTINF:2.000," :: ("segment_" ++ fmtD i ++ ".ts") :: entryLines is

/-- The media sequence number expected after `n` calls: `0` up to six calls,
`n - 6` afterwards. -/
def mediaSequence (n : Nat) : Int := if n ≤ 6 then 0 else (n : Int) - 6

/-- What holds of a segmenter after `n` calls of `CreateSegment` on a fresh one. -/
structure WindowInv (h : HLSSegmenter) (n : Nat) : Prop where
  dur : h.segmentDuration = 2 * Second
  idx : h.currentIndex = (n : Int)
  window : h.segments.map Segment.Index = lastIndices n
  durs : ∀ seg ∈ h.segments, seg.Duration = 2 * Second

/-- The name under which a pipeline is addressed. -/
def Which.name : Which → String
  | .play => "play"
  | .push => "push"

/-- The manager and outside state reached from a fresh manager by starting
"play" on the existing file and then "push" on it, in `sampleEnv`. -/
def bothStarted : StreamManager × Sys :=
  runFrom emptySys
    [.start sampleEnv "play" "/srv/videos/a.mp4", .start sampleEnv "push" "/srv/videos/a.mp4"]

/-- As `bothStarted`, after the process of "play" has exited with a failure and
its watcher has seen `Wait` return. -/
def playExited : StreamManager × Sys :=
  runFrom emptySys
    [.start sampleEnv "play" "/srv/videos/a.mp4", .start sampleEnv "push" "/srv/videos/a.mp4",
      .exit .play 0 (some "exit status 1")]

/-- As `bothStarted`, once the transcoder of "play" has written a playlist and
two segment files into its output directory. -/
def playStreaming : StreamManager × Sys :=
  (bothStarted.1,
    { entries := fun d =>
        if d = "/srv/hls/play" then ["playlist.m3u8", "segment_0.ts", "segment_1.ts"] else []
      procs := bothStarted.2.procs })

/-- Every active pipeline holds a command whose process was launched and is in
the process table. -/
def HandlePresent (st : StreamManager × Sys) : Prop :=
  ∀ w : Which, (st.1.get w).isActive = true →
    ∃ c pid, (st.1.get w).cmd = some c ∧ c.process = some pid ∧ pid < st.2.procs.length

/-! ## `backend/stream.go` -/

namespace Backend

/-- A byte slice over mapped memory, as a slice header: address of the first
byte, length and capacity. The bytes themselves are those of the mapped file. -/
structure Slice where
  addr : Nat
  len : Nat
  cap : Nat
deriving DecidableEq, Repr

/-- Buffer `VideoBuffer` of package `backend` (the lock is not modelled). -/
structure VideoBuffer where
  data : Slice
  size : Int
deriving DecidableEq, Repr

/-- Pipeline `HLSStream` of package `backend`; the shared buffer is held by the
manager. -/
structure HLSStream where
  segmenter : HLSSegmenter
  state : StreamState
deriving DecidableEq, Repr

/-- Coordinator `StreamManager` of package `backend`. -/
structure StreamManager where
  buffer : VideoBuffer
  playStream : HLSStream
  pushStream : HLSStream
deriving DecidableEq, Repr

/-- What the operating system answers to the calls of `NewStreamManager` and
`Close`: opening a file gives an error or the file's length in bytes, and each
other call reports an error or `none`. -/
structure FileEnv where
  openFile : String → Except String Nat
  fstatErr : String → Option String
  mmapErr : Nat → Option String
  munmapErr : Nat → Option String

/-- The bookkeeping of `unix.Mmap` and `unix.Munmap`: the mappings currently
registered as active, and the address at which the next mapping is placed. -/
structure MapSys where
  active : List Slice
  next : Nat
deriving DecidableEq, Repr

/-- The key under which the mapper registers a slice: the address of its last
byte within capacity. -/
def Slice.key (b : Slice) : Nat := b.addr + b.cap - 1

/-- Library call `unix.Mmap` of a whole file of `length` bytes: a length that is
not positive is an invalid argument; otherwise the region is mapped, registered
as active and returned as a slice whose length and capacity are `length`. -/
def Mmap (env : FileEnv) (ms : MapSys) (length : Nat) : MapSys × Except String Slice :=
  if length = 0 then (ms, .error "invalid argument")
  else
    match env.mmapErr length with
    | some e => (ms, .error e)
    | none =>
      let b : Slice := { addr := ms.next, len := length, cap := length }
      ({ active := b :: ms.active, next := ms.next + length }, .ok b)

/-- Library call `unix.Munmap`: an empty slice, a resliced one, or one that is
not registered as active is an invalid argument; otherwise the region is
unmapped and its registration deleted. -/
def Munmap (env : FileEnv) (ms : MapSys) (data : Slice) : MapSys × Option String :=
  if data.len = 0 ∨ data.len ≠ data.cap then (ms, some "invalid argument")
  else
    match ms.active.find? (fun b => b.key = data.key) with
    | none => (ms, some "invalid argument")
    | some b =>
      if b.addr ≠ data.addr then (ms, some "invalid argument")
      else
        match env.munmapErr b.addr with
        | some e => (ms, some e)
        | none => ({ ms with active := ms.active.filter (fun c => c.key ≠ data.key) }, none)

/-- Constructor `NewStreamManager` of package `backend`: open the file, read its
size, map it, and build the manager around the mapped buffer. -/
def NewStreamManager (env : FileEnv) (ms : MapSys) (filepath : String) :
    MapSys × Except String StreamManager :=
  match env.openFile filepath with
  | .error e => (ms, .error e)
  | .ok fileSize =>
    match env.fstatErr filepath with
    | some e => (ms, .error e)
    | none =>
      match Mmap env ms fileSize with
      | (ms1, .error e) => (ms1, .error e)
      | (ms1, .ok data) =>
        let buffer : VideoBuffer := { data := data, size := fileSize }
        let playStream : HLSStream := { segmenter := NewHLSSegmenter, state := ⟨0, 0, 0⟩ }
        let pushStream : HLSStream := { segmenter := NewHLSSegmenter, state := ⟨0, 0, 0⟩ }
        (ms1, .ok { buffer := buffer, playStream := playStream, pushStream := pushStream })

/-- Method `Close` of package `backend`: unmap the buffer and return what
`unix.Munmap` reports. The manager itself is not written to. -/
def Close (env : FileEnv) (sm : StreamManager) (ms : MapSys) :
    StreamManager × MapSys × Option String :=
  let r := Munmap env ms sm.buffer.data
  (sm, r.1, r.2)

/-- An environment in which every call succeeds and `/srv/videos/a.mp4` is a
file of 4096 bytes. -/
def sampleFileEnv : FileEnv :=
  { openFile := fun p => if p = "/srv/videos/a.mp4" then .ok 4096 else .error "no such file"
    fstatErr := fun _ => none
    mmapErr := fun _ => none
    munmapErr := fun _ => none }

/-- The manager made by `NewStreamManager` over the sample file when no mapping
exists yet. -/
def sampleManager : StreamManager :=
  { buffer := { data := { addr := 0, len := 4096, cap := 4096 }, size := 4096 }
    playStream := { segmenter := NewHLSSegmenter, state := ⟨0, 0, 0⟩ }
    pushStream := { segmenter := NewHLSSegmenter, state := ⟨0, 0, 0⟩ } }

/-- The mapper before anything has been mapped. -/
def noMappings : MapSys :=
  { active := [], next := 0 }

/-- The mapper once `NewStreamManager` has mapped the sample file. -/
def sampleMapped : MapSys :=
  { active := [{ addr := 0, len := 4096, cap := 4096 }], next := 4096 }

end Backend

/-! ## The segment window -/

theorem lastIndices_length (n : Nat) : (lastIndices n).length = min n 6 := by
  unfold lastIndices
  rw [List.length_map, List.length_range']

theorem lastIndices_succ (n : Nat) :
    lastIndices (n + 1) =
      if (lastIndices n ++ [(n : Int)]).length > 6 then (lastIndices n ++ [(n : Int)]).drop 1
      else lastIndices n ++ [(n : Int)] := by
  rcases Nat.lt_or_ge n 6 with h | h
  · have h1 : min n 6 = n := by omega
    have h2 : min (n + 1) 6 = n + 1 := by omega
    have hlen : ¬ (lastIndices n ++ [(n : Int)]).length > 6 := by
      simp [lastIndices_length]; omega
    rw [if_neg hlen]
    simp [lastIndices, h1, h2, List.range'_concat]
  · obtain ⟨m, rfl⟩ : ∃ m, n = m + 6 := ⟨n - 6, by omega⟩
    have h1 : min (m + 6) 6 = 6 := by omega
    have h2 : min (m + 6 + 1) 6 = 6 := by omega
    have hlen : (lastIndices (m + 6) ++ [((m + 6 : Nat) : Int)]).length > 6 := by
      simp [lastIndices_length]
    rw [if_pos hlen]
    have e1 : m + 6 - 6 = m := by omega
    have e2 : m + 6 + 1 - 6 = m + 1 := by omega
    simp [lastIndices, h1, h2, e1, e2, List.range']
    omega

theorem windowInv_new : WindowInv NewHLSSegmenter 0 :=
  ⟨rfl, rfl, rfl, by intro seg hseg; cases hseg⟩

theorem windowInv_step {h : HLSSegmenter} {n : Nat} (inv : WindowInv h n)
    (data : List (Fin 256)) (startTime : Int) :
    WindowInv (h.CreateSegment data startTime).1 (n + 1) := by
  refine ⟨inv.dur, ?_, ?_, ?_⟩
  · simp [HLSSegmenter.CreateSegment, inv.idx]
  · rw [lastIndices_succ, ← inv.window, ← inv.idx]
    simp only [HLSSegmenter.CreateSegment]
    split <;> rename_i hc <;> simp at hc ⊢
    · rw [if_pos (by omega)]
    · rw [if_neg (by omega)]
  · intro seg hseg
    simp only [HLSSegmenter.CreateSegment] at hseg
    have hmem : seg ∈ h.segments ++ [⟨h.currentIndex, startTime, h.segmentDuration, data⟩] := by
      split at hseg
      · exact List.mem_of_mem_drop hseg
      · exact hseg
    rcases List.mem_append.1 hmem with hm | hm
    · exact inv.durs seg hm
    · simp at hm; rw [hm]; exact inv.dur

theorem windowInv_foldl (calls : List (List (Fin 256) × Int)) :
    ∀ (h : HLSSegmenter) (n : Nat), WindowInv h n →
      WindowInv (calls.foldl (fun h c => (h.CreateSegment c.1 c.2).1) h) (n + calls.length) := by
  induction calls with
  | nil => intro h n inv; simpa using inv
  | cons c cs ih =>
    intro h n inv
    have step := ih _ _ (windowInv_step inv c.1 c.2)
    simpa [List.foldl, Nat.add_assoc, Nat.add_comm 1] using step

theorem windowInv_afterCalls (calls : List (List (Fin 256) × Int)) :
    WindowInv (afterCalls calls) calls.length := by
  simpa [afterCalls] using windowInv_foldl calls NewHLSSegmenter 0 windowInv_new

theorem fmtSeconds3_two : fmtSeconds3 (2 * Second) = "2.000" := by decide

theorem foldl_entries (segs : List Segment) :
    ∀ init : String, (∀ seg ∈ segs, seg.Duration = 2 * Second) →
      segs.foldl
        (fun playlist seg =>
          (playlist ++ ("#EXTINF:" ++ fmtSeconds3 seg.Duration ++ ",\n")) ++
            ("segment_" ++ fmtD seg.Index ++ ".ts\n"))
        init = init ++ unlines (entryLines (segs.map Segment.Index)) := by
  induction segs with
  | nil => intro init _; simp [entryLines, unlines]
  | cons s segs ih =>
    intro init hd
    have hs : s.Duration = 2 * Second := hd s (List.mem_cons_self _ _)
    have hrest : ∀ seg ∈ segs, seg.Duration = 2 * Second :=
      fun seg hseg => hd seg (List.mem_cons_of_mem _ hseg)
    have e1 : "#EXTINF:" ++ "2.000" ++ ",\n" = "#EXTINF:2.000," ++ "\n" := by decide
    have e2 : ".ts\n" = ".ts" ++ "\n" := by decide
    simp only [List.foldl, List.map, entryLines, unlines]
    rw [ih _ hrest, hs, fmtSeconds3_two, e1, e2]
    simp only [String.append_assoc]

/-- C1: after any finite sequence of `CreateSegment` calls on a segmenter made by
`NewHLSSegmenter` (hence after each call of a longer sequence, every prefix being
such a sequence), the retained window holds at most 6 segments and the indices of
the retained segments, in order, are exactly the last `min n 6` of `0 .. n-1`,
where `n` is the number of calls: a contiguous suffix, nothing repeated or skipped. -/
theorem window_holds_last_six (calls : List (List (Fin 256) × Int)) :
    (afterCalls calls).segments.length ≤ 6 ∧
      (afterCalls calls).segments.map Segment.Index = lastIndices calls.length := by
  have inv := windowInv_afterCalls calls
  refine ⟨?_, inv.window⟩
  have hlen := congrArg List.length inv.window
  rw [List.length_map, lastIndices_length] at hlen
  omega

theorem mediaSequence_eq {h : HLSSegmenter} {n : Nat} (inv : WindowInv h n) :
    h.currentIndex - (h.segments.length : Int) = mediaSequence n := by
  have hlen := congrArg List.length inv.window
  rw [List.length_map, lastIndices_length] at hlen
  rw [inv.idx, hlen]
  unfold mediaSequence
  split <;> omega

theorem lastIndices_head (n : Nat) :
    (lastIndices n).head? = if n = 0 then none else some (mediaSequence n) := by
  rcases Nat.eq_zero_or_pos n with h | h
  · subst h; rfl
  · obtain ⟨k, hk⟩ : ∃ k, min n 6 = k + 1 := ⟨min n 6 - 1, by omega⟩
    rw [if_neg (by omega)]
    unfold lastIndices mediaSequence
    rw [hk, List.range'_succ]
    simp only [List.map_cons, List.head?_cons, Option.some.injEq]
    split <;> simp <;> omega

theorem playlist_eq (calls : List (List (Fin 256) × Int)) :
    (afterCalls calls).GetPlaylist.2 =
      unlines
        (["#EXTM3U", "#EXT-X-VERSION:3", "#EXT-X-TARGETDURATION:2",
          "#EXT-X-MEDIA-SEQUENCE:" ++ fmtD (mediaSequence calls.length)] ++
          entryLines (lastIndices calls.length)) := by
  have inv := windowInv_afterCalls calls
  have e1 : "#EXTM3U\n" = "#EXTM3U" ++ "\n" := by decide
  have e2 : "#EXT-X-VERSION:3\n" = "#EXT-X-VERSION:3" ++ "\n" := by decide
  have e3 : "#EXT-X-TARGETDURATION:2\n" = "#EXT-X-TARGETDURATION:2" ++ "\n" := by decide
  simp only [HLSSegmenter.GetPlaylist]
  rw [foldl_entries _ _ inv.durs, inv.window, mediaSequence_eq inv, e1, e2, e3]
  simp only [List.cons_append, List.nil_append, unlines, String.append_assoc]
  rfl

/-- C2: after `n` calls of `CreateSegment` on a fresh segmenter the playlist text
consists of newline-terminated lines whose fourth is `#EXT-X-MEDIA-SEQUENCE:0`
when `n ≤ 6` and `#EXT-X-MEDIA-SEQUENCE:<n-6>` when `n > 6`, and whenever the
window is non-empty that number is the index of its oldest (first) segment. -/
theorem playlist_media_sequence (calls : List (List (Fin 256) × Int)) :
    (∃ rest : List String,
        (afterCalls calls).GetPlaylist.2 =
          unlines
            (["#EXTM3U", "#EXT-X-VERSION:3", "#EXT-X-TARGETDURATION:2",
              "#EXT-X-MEDIA-SEQUENCE:" ++
                fmtD (if calls.length ≤ 6 then 0 else (calls.length : Int) - 6)] ++ rest)) ∧
      (afterCalls calls).segments.head?.map Segment.Index =
        if calls.length = 0 then none
        else some (if calls.length ≤ 6 then 0 else (calls.length : Int) - 6) := by
  refine ⟨⟨entryLines (lastIndices calls.length), playlist_eq calls⟩, ?_⟩
  rw [← List.head?_map, (windowInv_afterCalls calls).window, lastIndices_head]
  rfl

/-- C9: in every segmenter state reached by `CreateSegment` calls on a fresh
segmenter, `GetPlaylist` returns exactly the newline-terminated lines `#EXTM3U`,
`#EXT-X-VERSION:3`, `#EXT-X-TARGETDURATION:2`, one `#EXT-X-MEDIA-SEQUENCE:<k>`
line, and then for each retained segment in window order the line
`#EXTINF:2.000,` followed by `segment_<index>.ts`; the window order is by
increasing index (oldest first), and the segmenter is the same after the call. -/
theorem playlist_text_exact (calls : List (List (Fin 256) × Int)) :
    (afterCalls calls).GetPlaylist.2 =
        unlines
          (["#EXTM3U", "#EXT-X-VERSION:3", "#EXT-X-TARGETDURATION:2",
            "#EXT-X-MEDIA-SEQUENCE:" ++ fmtD (mediaSequence calls.length)] ++
            entryLines ((afterCalls calls).segments.map Segment.Index)) ∧
      (afterCalls calls).segments.map Segment.Index = lastIndices calls.length ∧
      (afterCalls calls).GetPlaylist.1 = afterCalls calls := by
  have inv := windowInv_afterCalls calls
  refine ⟨?_, inv.window, rfl⟩
  rw [inv.window]
  exact playlist_eq calls

/-! ## Starting and stopping pipelines -/

theorem cleanLoop_procs (env : Env) (dir : String) (names : List String) :
    ∀ sys : Sys, (cleanLoop env dir sys names).1.procs = sys.procs := by
  induction names with
  | nil => intro sys; rfl
  | cons name rest ih =>
    intro sys
    simp only [cleanLoop]
    split
    · rfl
    · rw [ih]

theorem cleanDirectory_procs (env : Env) (sys : Sys) (dir : String) :
    (cleanDirectory env sys dir).1.procs = sys.procs := by
  simp only [cleanDirectory]
  split
  · rfl
  · split
    · rfl
    · exact cleanLoop_procs env dir _ sys

theorem start_active_frame (env : Env) (sm : StreamManager) (sys : Sys) (w : Which)
    (videoPath : String) (ha : (sm.get w).isActive = true) :
    (StartStream env sm sys w.name videoPath).1 = sm ∧
      (StartStream env sm sys w.name videoPath).2.1.procs = sys.procs ∧
      (StartStream env sm sys w.name videoPath).2.2 ≠ none := by
  cases h1 : env.abs videoPath with
  | error e => cases w <;> simp [StartStream, h1]
  | ok absPath =>
    cases h2 : env.stat absPath with
    | notExist => cases w <;> simp [StartStream, h1, h2]
    | failed e => cases w <;> simp [StartStream, h1, h2]
    | ok =>
      cases h3 : env.getwd with
      | error e => cases w <;> simp [StartStream, h1, h2, h3]
      | ok workDir =>
        cases h4 : env.mkdirAllErr (filepathJoin [workDir, "hls", w.name]) with
        | some e => cases w <;> simp_all [StartStream, Which.name]
        | none =>
          have hp := cleanDirectory_procs env sys (filepathJoin [workDir, "hls", w.name])
          cases h5 : cleanDirectory env sys (filepathJoin [workDir, "hls", w.name]) with
          | mk sys1 r =>
            rw [h5] at hp
            cases r with
            | some e => cases w <;> simp_all [StartStream, Which.name]
            | none => cases w <;> simp_all [StartStream, Which.name]

theorem start_active_error (env : Env) (sm : StreamManager) (sys : Sys) (w : Which)
    (videoPath absPath workDir : String) (ha : (sm.get w).isActive = true)
    (h1 : env.abs videoPath = .ok absPath) (h2 : env.stat absPath = .ok)
    (h3 : env.getwd = .ok workDir)
    (h4 : env.mkdirAllErr (filepathJoin [workDir, "hls", w.name]) = none)
    (h5 : (cleanDirectory env sys (filepathJoin [workDir, "hls", w.name])).2 = none) :
    (StartStream env sm sys w.name videoPath).2.2 =
      some ("stream " ++ w.name ++ " is already active") := by
  cases h6 : cleanDirectory env sys (filepathJoin [workDir, "hls", w.name]) with
  | mk sys1 r =>
    rw [h6] at h5
    cases w <;> simp_all [StartStream, Which.name]

/-- C3: for `name` one of "play" and "push" whose pipeline is already active,
`StartStream` returns an error, leaves the manager (both pipelines, with their
command handles and active flags) as it was and launches no process; when the
source path resolves to an existing file and the working directory and the
output directory can be prepared, the error is the "already active" one. -/
theorem start_rejected_of_active (env : Env) (sm : StreamManager) (sys : Sys)
    (name videoPath : String)
    (hact : (name = "play" ∧ sm.playStream.isActive = true) ∨
      (name = "push" ∧ sm.pushStream.isActive = true)) :
    (StartStream env sm sys name videoPath).1 = sm ∧
      (StartStream env sm sys name videoPath).2.1.procs = sys.procs ∧
      (StartStream env sm sys name videoPath).2.2 ≠ none ∧
      (∀ absPath workDir, env.abs videoPath = .ok absPath → env.stat absPath = .ok →
        env.getwd = .ok workDir →
        env.mkdirAllErr (filepathJoin [workDir, "hls", name]) = none →
        (cleanDirectory env sys (filepathJoin [workDir, "hls", name])).2 = none →
        (StartStream env sm sys name videoPath).2.2 =
          some ("stream " ++ name ++ " is already active")) := by
  rcases hact with ⟨rfl, ha⟩ | ⟨rfl, ha⟩
  · obtain ⟨f1, f2, f3⟩ := start_active_frame env sm sys .play videoPath ha
    exact ⟨f1, f2, f3, fun absPath workDir h1 h2 h3 h4 h5 =>
      start_active_error env sm sys .play videoPath absPath workDir ha h1 h2 h3 h4 h5⟩
  · obtain ⟨f1, f2, f3⟩ := start_active_frame env sm sys .push videoPath ha
    exact ⟨f1, f2, f3, fun absPath workDir h1 h2 h3 h4 h5 =>
      start_active_error env sm sys .push videoPath absPath workDir ha h1 h2 h3 h4 h5⟩

/-- Instance of C3: "play" is started a second time while both pipelines run. -/
theorem start_rejected_of_active_witness :
    (("play" = "play" ∧ bothStarted.1.playStream.isActive = true) ∨
        ("play" = "push" ∧ bothStarted.1.pushStream.isActive = true)) ∧
      (StartStream sampleEnv bothStarted.1 bothStarted.2 "play" "/srv/videos/a.mp4").1 =
        bothStarted.1 ∧
      (StartStream sampleEnv bothStarted.1 bothStarted.2 "play" "/srv/videos/a.mp4").2.1.procs =
        bothStarted.2.procs ∧
      (StartStream sampleEnv bothStarted.1 bothStarted.2 "play" "/srv/videos/a.mp4").2.2 =
        some ("stream " ++ "play" ++ " is already active") :=
  have h := start_rejected_of_active sampleEnv bothStarted.1 bothStarted.2 "play"
    "/srv/videos/a.mp4" (Or.inl ⟨rfl, by decide⟩)
  ⟨Or.inl ⟨rfl, by decide⟩, h.1, h.2.1,
    h.2.2.2 "/srv/videos/a.mp4" "/srv" rfl (by decide) rfl rfl (by decide)⟩

/-- C4: evaluation at a failing input. "play" is active and its output directory
holds a playlist and two segments written by the running transcoder; a second
`StartStream` for "play" is rejected as already active, yet the directory has been
emptied by the call (the purge runs before the active check). -/
theorem rejected_start_purges_directory :
    playStreaming.1.playStream.isActive = true ∧
      playStreaming.2.entries "/srv/hls/play" =
        ["playlist.m3u8", "segment_0.ts", "segment_1.ts"] ∧
      (StartStream sampleEnv playStreaming.1 playStreaming.2 "play" "/srv/videos/a.mp4").2.2 =
        some "stream play is already active" ∧
      (StartStream sampleEnv playStreaming.1 playStreaming.2 "play"
        "/srv/videos/a.mp4").2.1.entries "/srv/hls/play" = [] := by
  decide

theorem reap_length (sys : Sys) (pid : Nat) : (reap sys pid).procs.length = sys.procs.length := by
  simp [reap]

theorem stop_idle (sm : StreamManager) (sys : Sys) (w : Which)
    (h : (sm.get w).isActive = false) : StopStream sm sys w.name = (sm, sys, none) := by
  cases w <;> simp [StopStream, Which.name, h]

theorem stop_ok_idle (sm : StreamManager) (sys : Sys) (w : Which)
    (h : (StopStream sm sys w.name).2.2 = none) :
    ((StopStream sm sys w.name).1.get w).isActive = false := by
  cases ha : (sm.get w).isActive with
  | false => rw [stop_idle sm sys w ha]; exact ha
  | true =>
    cases hc : (sm.get w).cmd with
    | none => cases w <;> simp_all [StopStream, Which.name, StreamManager.get, StreamManager.set]
    | some c =>
      cases hp : c.process with
      | none => cases w <;> simp_all [StopStream, Which.name, StreamManager.get, StreamManager.set]
      | some pid =>
        cases hk : kill sys pid with
        | none =>
          cases w <;> simp_all [StopStream, Which.name, StreamManager.get, StreamManager.set]
        | some e =>
          cases w <;> simp_all [StopStream, Which.name, StreamManager.get, StreamManager.set]

theorem stop_error_unchanged_aux (sm : StreamManager) (sys : Sys) (w : Which) (e : String)
    (h : (StopStream sm sys w.name).2.2 = some e) :
    StopStream sm sys w.name = (sm, sys, some e) := by
  cases ha : (sm.get w).isActive with
  | false => rw [stop_idle sm sys w ha] at h; simp at h
  | true =>
    cases hc : (sm.get w).cmd with
    | none => cases w <;> simp_all [StopStream, Which.name]
    | some c =>
      cases hp : c.process with
      | none => cases w <;> simp_all [StopStream, Which.name]
      | some pid =>
        cases hk : kill sys pid with
        | none => cases w <;> simp_all [StopStream, Which.name]
        | some e2 => cases w <;> simp_all [StopStream, Which.name]

theorem stop_error_unchanged (sm : StreamManager) (sys : Sys) (name e : String)
    (h : (StopStream sm sys name).2.2 = some e) :
    StopStream sm sys name = (sm, sys, some e) := by
  by_cases h1 : name = "play"
  · subst h1; exact stop_error_unchanged_aux sm sys .play e h
  · by_cases h2 : name = "push"
    · subst h2; exact stop_error_unchanged_aux sm sys .push e h
    · simp_all [StopStream]

/-- C10: for `name` one of "play" and "push", `StopStream` on a pipeline that is
not active returns no error and leaves the manager and the outside state
unchanged; consequently, after a `StopStream` that returned no error, a second
`StopStream` of the same name returns no error and changes nothing. -/
theorem stop_idle_is_noop (sm : StreamManager) (sys : Sys) (name : String)
    (hname : name = "play" ∨ name = "push") :
    (((name = "play" ∧ sm.playStream.isActive = false) ∨
          (name = "push" ∧ sm.pushStream.isActive = false)) →
        StopStream sm sys name = (sm, sys, none)) ∧
      ((StopStream sm sys name).2.2 = none →
        StopStream (StopStream sm sys name).1 (StopStream sm sys name).2.1 name =
          ((StopStream sm sys name).1, (StopStream sm sys name).2.1, none)) := by
  constructor
  · rintro (⟨rfl, h⟩ | ⟨rfl, h⟩)
    · exact stop_idle sm sys .play h
    · exact stop_idle sm sys .push h
  · intro hok
    rcases hname with rfl | rfl
    · exact stop_idle _ _ .play (stop_ok_idle sm sys .play hok)
    · exact stop_idle _ _ .push (stop_ok_idle sm sys .push hok)

/-- Instance of C10: a stop on a fresh manager, and a second stop of "play". -/
theorem stop_idle_is_noop_witness :
    ("play" = "play" ∨ "play" = "push") ∧
      StopStream (NewStreamManager "").1 emptySys "play" =
        ((NewStreamManager "").1, emptySys, none) ∧
      StopStream (StopStream bothStarted.1 bothStarted.2 "play").1
          (StopStream bothStarted.1 bothStarted.2 "play").2.1 "play" =
        ((StopStream bothStarted.1 bothStarted.2 "play").1,
          (StopStream bothStarted.1 bothStarted.2 "play").2.1, none) :=
  ⟨Or.inl rfl,
    (stop_idle_is_noop (NewStreamManager "").1 emptySys "play" (Or.inl rfl)).1
      (Or.inl ⟨rfl, rfl⟩),
    (stop_idle_is_noop bothStarted.1 bothStarted.2 "play" (Or.inl rfl)).2 (by decide)⟩

/-- Against C5 as stated: "play" is marked active and its process has finished;
`StopStream` returns an error and the pipeline stays active with its handle. -/
theorem stop_exited_counterexample :
    playExited.1.playStream.isActive = true ∧
      (playExited.2.procs.get? 0).map Proc.status = some ProcStatus.finished ∧
      (StopStream playExited.1 playExited.2 "play").2.2 =
        some "failed to kill ffmpeg: os: process already finished" ∧
      (StopStream playExited.1 playExited.2 "play").1.playStream.isActive = true ∧
      (StopStream playExited.1 playExited.2 "play").1.playStream.cmd ≠ none := by
  decide

/-- C5, as amended: for a pipeline marked active whose process has already
finished, so that the kill request reports an error, `StopStream` returns the
"failed to kill ffmpeg" error and changes nothing: the pipeline stays marked
active and keeps its command handle. -/
theorem stop_fails_when_exited (sm : StreamManager) (sys : Sys) (w : Which) (c : Cmd)
    (pid : Nat) (p : Proc) (ha : (sm.get w).isActive = true) (hc : (sm.get w).cmd = some c)
    (hp : c.process = some pid) (hproc : sys.procs.get? pid = some p)
    (hfin : p.status = .finished) :
    StopStream sm sys w.name =
      (sm, sys, some "failed to kill ffmpeg: os: process already finished") := by
  have hk : kill sys pid = some "os: process already finished" := by
    unfold kill
    rw [hproc]
    simp [hfin]
  have e : "failed to kill ffmpeg: " ++ "os: process already finished" =
      "failed to kill ffmpeg: os: process already finished" := by decide
  cases w <;> simp_all [StopStream, Which.name]

/-- Instance of C5 as amended, on the state in which the process of "play" has exited. -/
theorem stop_fails_when_exited_witness :
    (playExited.1.get .play).isActive = true ∧
      StopStream playExited.1 playExited.2 Which.play.name =
        (playExited.1, playExited.2,
          some "failed to kill ffmpeg: os: process already finished") :=
  ⟨by decide,
    stop_fails_when_exited playExited.1 playExited.2 .play
      { path := "ffmpeg"
        args := ffmpegArgsFor "/srv/videos/a.mp4" "/srv/hls/play"
        dir := "/srv"
        process := some 0 }
      0
      { args := ffmpegArgsFor "/srv/videos/a.mp4" "/srv/hls/play"
        dir := "/srv"
        status := .finished }
      (by decide) (by decide) rfl (by decide) rfl⟩

/-- Against C6 as stated: after the watcher has seen the process of "play" exit
with a failure, the pipeline is still marked active. -/
theorem watcher_counterexample :
    bothStarted.1.playStream.isActive = true ∧
      ((watcher bothStarted.1 bothStarted.2 .play 0 (some "exit status 1")).2.procs.get? 0).map
          Proc.status = some ProcStatus.finished ∧
      (watcher bothStarted.1 bothStarted.2 .play 0
        (some "exit status 1")).1.playStream.isActive = true := by
  decide

theorem handlePresent_mono {sm : StreamManager} {sys sys1 : Sys}
    (inv : HandlePresent (sm, sys)) (hle : sys.procs.length ≤ sys1.procs.length) :
    HandlePresent (sm, sys1) := by
  intro v hv
  obtain ⟨c, pid, hc, hpid, hlt⟩ := inv v hv
  exact ⟨c, pid, hc, hpid, Nat.lt_of_lt_of_le hlt hle⟩

theorem handlePresent_set_idle {sm : StreamManager} {sys : Sys} (w : Which) (s : HLSStream)
    (inv : HandlePresent (sm, sys)) (hs : s.isActive = false) :
    HandlePresent (sm.set w s, sys) := by
  intro v hv
  have iv := inv v
  cases w <;> cases v <;> simp_all [StreamManager.get, StreamManager.set]

theorem handlePresent_set_active {sm : StreamManager} {sys : Sys} (w : Which) (s : HLSStream)
    (c : Cmd) (pid : Nat) (inv : HandlePresent (sm, sys)) (hc : s.cmd = some c)
    (hp : c.process = some pid) (hlt : pid < sys.procs.length) :
    HandlePresent (sm.set w s, sys) := by
  intro v hv
  have iv := inv v
  cases w <;> cases v <;> simp_all [StreamManager.get, StreamManager.set]

theorem handlePresent_start (env : Env) (sm : StreamManager) (sys : Sys) (w : Which)
    (videoPath : String) (inv : HandlePresent (sm, sys)) :
    HandlePresent ((StartStream env sm sys w.name videoPath).1,
      (StartStream env sm sys w.name videoPath).2.1) := by
  cases h1 : env.abs videoPath with
  | error e => cases w <;> simpa [StartStream, h1] using inv
  | ok absPath =>
    cases h2 : env.stat absPath with
    | notExist => cases w <;> simpa [StartStream, h1, h2] using inv
    | failed e => cases w <;> simpa [StartStream, h1, h2] using inv
    | ok =>
      cases h3 : env.getwd with
      | error e => cases w <;> simpa [StartStream, h1, h2, h3] using inv
      | ok workDir =>
        cases h4 : env.mkdirAllErr (filepathJoin [workDir, "hls", w.name]) with
        | some e => cases w <;> simp_all [StartStream, Which.name]
        | none =>
          have hp := cleanDirectory_procs env sys (filepathJoin [workDir, "hls", w.name])
          cases h5 : cleanDirectory env sys (filepathJoin [workDir, "hls", w.name]) with
          | mk sys1 r =>
            rw [h5] at hp
            simp only at hp
            have inv1 : HandlePresent (sm, sys1) := handlePresent_mono inv (by rw [hp])
            cases r with
            | some e => cases w <;> simp_all [StartStream, Which.name]
            | none =>
              cases ha : (sm.get w).isActive with
              | true =>
                cases w <;> simp_all [StartStream, Which.name]
              | false =>
                cases hs : env.startErr
                    (ffmpegArgsFor absPath (filepathJoin [workDir, "hls", w.name])) with
                | some e =>
                  have key := handlePresent_set_idle w
                    { sm.get w with
                      cmd := some { path := "ffmpeg"
                                    args := ffmpegArgsFor absPath
                                      (filepathJoin [workDir, "hls", w.name])
                                    dir := workDir
                                    process := none } } inv1 ha
                  cases w <;> simp_all [StartStream, Which.name]
                | none =>
                  have inv2 : HandlePresent (sm,
                      ({ sys1 with
                         procs := sys1.procs ++
                           [{ args := ffmpegArgsFor absPath
                                (filepathJoin [workDir, "hls", w.name])
                              dir := workDir
                              status := .running }] } : Sys)) :=
                    handlePresent_mono inv1 (by simp)
                  have key := handlePresent_set_active w
                    { sm.get w with
                      cmd := some { path := "ffmpeg"
                                    args := ffmpegArgsFor absPath
                                      (filepathJoin [workDir, "hls", w.name])
                                    dir := workDir
                                    process := some sys1.procs.length }
                      isActive := true }
                    _ sys1.procs.length inv2 rfl rfl (by simp)
                  cases w <;> simp_all [StartStream, Which.name]

theorem handlePresent_stop (sm : StreamManager) (sys : Sys) (w : Which)
    (inv : HandlePresent (sm, sys)) :
    HandlePresent ((StopStream sm sys w.name).1, (StopStream sm sys w.name).2.1) := by
  cases ha : (sm.get w).isActive with
  | false => rw [stop_idle sm sys w ha]; exact inv
  | true =>
    have idle := handlePresent_set_idle w { sm.get w with isActive := false } inv rfl
    cases hc : (sm.get w).cmd with
    | none => cases w <;> simp_all [StopStream, Which.name]
    | some c =>
      cases hp : c.process with
      | none => cases w <;> simp_all [StopStream, Which.name]
      | some pid =>
        cases hk : kill sys pid with
        | some e => cases w <;> simp_all [StopStream, Which.name]
        | none =>
          have key := handlePresent_set_idle w
            { sm.get w with cmd := none, isActive := false }
            (handlePresent_mono inv (Nat.le_of_eq (reap_length sys pid).symm)) rfl
          cases w <;> simp_all [StopStream, Which.name]

theorem handlePresent_apply (st : StreamManager × Sys) (a : Action) (inv : HandlePresent st) :
    HandlePresent (a.apply st) := by
  obtain ⟨sm, sys⟩ := st
  cases a with
  | start env name videoPath =>
    by_cases h1 : name = "play"
    · subst h1; exact handlePresent_start env sm sys .play videoPath inv
    · by_cases h2 : name = "push"
      · subst h2; exact handlePresent_start env sm sys .push videoPath inv
      · simp only [Action.apply]
        cases e1 : env.abs videoPath with
        | error e => simpa [StartStream, e1] using inv
        | ok absPath =>
          cases e2 : env.stat absPath with
          | notExist => simpa [StartStream, e1, e2] using inv
          | failed e => simpa [StartStream, e1, e2] using inv
          | ok =>
            cases e3 : env.getwd with
            | error e => simpa [StartStream, e1, e2, e3] using inv
            | ok workDir => simpa [StartStream, e1, e2, e3, h1, h2] using inv
  | stop name =>
    by_cases h1 : name = "play"
    · subst h1; exact handlePresent_stop sm sys .play inv
    · by_cases h2 : name = "push"
      · subst h2; exact handlePresent_stop sm sys .push inv
      · simpa [Action.apply, StopStream, h1, h2] using inv
  | exit stream pid waitErr =>
    have key : HandlePresent (sm, reap sys pid) :=
      handlePresent_mono inv (Nat.le_of_eq (reap_length sys pid).symm)
    cases waitErr <;> simpa [Action.apply, watcher] using key

theorem handlePresent_foldl (acts : List Action) :
    ∀ st : StreamManager × Sys, HandlePresent st → HandlePresent (acts.foldl Action.apply st) := by
  induction acts with
  | nil => intro st inv; exact inv
  | cons a rest ih => intro st inv; exact ih _ (handlePresent_apply st a inv)

theorem handlePresent_runFrom (sys : Sys) (acts : List Action) :
    HandlePresent (runFrom sys acts) := by
  apply handlePresent_foldl
  intro w hw
  cases w <;> simp [NewStreamManager, StreamManager.get] at hw

theorem watcher_manager (sm : StreamManager) (sys : Sys) (w : Which) (pid : Nat)
    (waitErr : Option String) : (watcher sm sys w pid waitErr).1 = sm := by
  cases waitErr <;> simp [watcher]

/-- C6, as amended: in every state reached from a fresh manager by start, stop
and process-exit steps in which a pipeline is marked active, the watcher's step
for that pipeline leaves the manager unchanged, so the pipeline is still marked
active afterwards, and the pipeline holds a command handle with a launched
process of the process table. -/
theorem active_has_handle_after_exit (sys : Sys) (acts : List Action) (w : Which) (pid : Nat)
    (waitErr : Option String) (ha : ((runFrom sys acts).1.get w).isActive = true) :
    ((watcher (runFrom sys acts).1 (runFrom sys acts).2 w pid waitErr).1.get w).isActive = true ∧
      (watcher (runFrom sys acts).1 (runFrom sys acts).2 w pid waitErr).1 = (runFrom sys acts).1 ∧
      ∃ c p, ((runFrom sys acts).1.get w).cmd = some c ∧ c.process = some p ∧
        p < (runFrom sys acts).2.procs.length := by
  refine ⟨?_, watcher_manager _ _ _ _ _, handlePresent_runFrom sys acts w ha⟩
  rw [watcher_manager]
  exact ha

/-- Instance of C6 as amended, after one successful start of "play". -/
theorem active_has_handle_after_exit_witness :
    ((runFrom emptySys [.start sampleEnv "play" "/srv/videos/a.mp4"]).1.get .play).isActive =
        true ∧
      ((watcher (runFrom emptySys [.start sampleEnv "play" "/srv/videos/a.mp4"]).1
        (runFrom emptySys [.start sampleEnv "play" "/srv/videos/a.mp4"]).2 .play 0
        (some "exit status 1")).1.get .play).isActive = true :=
  ⟨by decide,
    (active_has_handle_after_exit emptySys [.start sampleEnv "play" "/srv/videos/a.mp4"] .play 0
      (some "exit status 1") (by decide)).1⟩

theorem stop_push_keeps_play (sm : StreamManager) (sys : Sys) :
    (StopStream sm sys "push").1.playStream = sm.playStream := by
  cases ha : sm.pushStream.isActive with
  | false => simp [StopStream, StreamManager.get, ha]
  | true =>
    cases hc : sm.pushStream.cmd with
    | none => simp [StopStream, StreamManager.get, StreamManager.set, ha, hc]
    | some c =>
      cases hp : c.process with
      | none => simp [StopStream, StreamManager.get, StreamManager.set, ha, hc, hp]
      | some pid =>
        cases hk : kill sys pid <;>
          simp [StopStream, StreamManager.get, StreamManager.set, ha, hc, hp, hk]

/-- Against C7 as stated: the process of "play" has exited, so stopping it fails;
`Close` returns that failure and both pipelines are still marked active, the
process of "push" still running. -/
theorem close_counterexample :
    (Close playExited.1 playExited.2).2.2 =
        .returned (some "failed to kill ffmpeg: os: process already finished") ∧
      (Close playExited.1 playExited.2).1.playStream.isActive = true ∧
      (Close playExited.1 playExited.2).1.pushStream.isActive = true ∧
      ((Close playExited.1 playExited.2).2.1.procs.get? 1).map Proc.status =
        some ProcStatus.running := by
  decide

/-- C7, as amended: for every manager state, if `Close` returns without error then
both pipelines are idle; and when stopping "play" fails, `Close` returns that
failure at once and changes nothing, the stop of "push" not being attempted. -/
theorem close_idle_or_first_failure (sm : StreamManager) (sys : Sys) :
    ((Close sm sys).2.2 = .returned none →
        (Close sm sys).1.playStream.isActive = false ∧
          (Close sm sys).1.pushStream.isActive = false) ∧
      (∀ e, (StopStream sm sys "play").2.2 = some e →
        Close sm sys = (sm, sys, .returned (some e))) := by
  constructor
  · intro h
    cases h1 : StopStream sm sys "play" with
    | mk sm1 r1 =>
      obtain ⟨sys1, e1⟩ := r1
      cases e1 with
      | some e => simp [Close, h1] at h
      | none =>
        have p1 : sm1.playStream.isActive = false := by
          have := stop_ok_idle sm sys .play (by simp [Which.name, h1])
          simpa [Which.name, h1, StreamManager.get] using this
        cases h2 : StopStream sm1 sys1 "push" with
        | mk sm2 r2 =>
          obtain ⟨sys2, e2⟩ := r2
          cases e2 with
          | some e => simp [Close, h1, h2] at h
          | none =>
            have p2 : sm2.pushStream.isActive = false := by
              have := stop_ok_idle sm1 sys1 .push (by simp [Which.name, h2])
              simpa [Which.name, h2, StreamManager.get] using this
            have p3 : sm2.playStream.isActive = false := by
              have := stop_push_keeps_play sm1 sys1
              rw [h2] at this
              simp only at this
              rw [this]
              exact p1
            by_cases hc : sm2.stopChanClosed <;> simp [Close, h1, h2, hc, p2, p3]
  · intro e he
    have := stop_error_unchanged sm sys "play" e he
    simp [Close, this]

/-- Against C8 as stated: with an unknown name and a missing file the error is the
file-not-found one, not the unknown-stream one. -/
theorem unknown_name_counterexample :
    "unknown" ≠ "play" ∧ "unknown" ≠ "push" ∧
      (StartStream sampleEnv bothStarted.1 bothStarted.2 "unknown"
        "/srv/videos/missing.mp4").2.2 = some "video file not found: /srv/videos/missing.mp4" ∧
      (StartStream sampleEnv bothStarted.1 bothStarted.2 "unknown"
        "/srv/videos/missing.mp4").2.2 ≠ some ("unknown stream type: " ++ "unknown") := by
  decide

theorem unknown_name_frame (env : Env) (sm : StreamManager) (sys : Sys)
    (name videoPath : String) (h1 : name ≠ "play") (h2 : name ≠ "push") :
    StartStream env sm sys name videoPath =
        (sm, sys, (StartStream env sm sys name videoPath).2.2) ∧
      (StartStream env sm sys name videoPath).2.2 ≠ none := by
  cases e1 : env.abs videoPath with
  | error e => simp [StartStream, e1]
  | ok absPath =>
    cases e2 : env.stat absPath with
    | notExist => simp [StartStream, e1, e2]
    | failed e => simp [StartStream, e1, e2]
    | ok =>
      cases e3 : env.getwd with
      | error e => simp [StartStream, e1, e2, e3]
      | ok workDir => simp [StartStream, e1, e2, e3, h1, h2]

/-- C8, as amended: for every name other than "play" and "push" and every source
path, `StartStream` fails and leaves the manager and the outside state
unchanged; the error is the unknown-stream one when the path resolves to an
existing file and the working directory can be read, and the file-not-found one
when the file does not exist (the file checks run before the name check). -/
theorem unknown_name_rejected (env : Env) (sm : StreamManager) (sys : Sys)
    (name videoPath : String) (h1 : name ≠ "play") (h2 : name ≠ "push") :
    StartStream env sm sys name videoPath =
        (sm, sys, (StartStream env sm sys name videoPath).2.2) ∧
      (StartStream env sm sys name videoPath).2.2 ≠ none ∧
      (∀ absPath workDir, env.abs videoPath = .ok absPath → env.stat absPath = .ok →
        env.getwd = .ok workDir →
        (StartStream env sm sys name videoPath).2.2 = some ("unknown stream type: " ++ name)) ∧
      (∀ absPath, env.abs videoPath = .ok absPath → env.stat absPath = .notExist →
        (StartStream env sm sys name videoPath).2.2 =
          some ("video file not found: " ++ absPath)) := by
  obtain ⟨f1, f2⟩ := unknown_name_frame env sm sys name videoPath h1 h2
  refine ⟨f1, f2, ?_, ?_⟩
  · intro absPath workDir e1 e2 e3
    simp [StartStream, e1, e2, e3, h1, h2]
  · intro absPath e1 e2
    simp [StartStream, e1, e2]

/-- Instance of C8 as amended: an unknown name with an existing file. -/
theorem unknown_name_rejected_witness :
    "unknown" ≠ "play" ∧ "unknown" ≠ "push" ∧
      StartStream sampleEnv bothStarted.1 bothStarted.2 "unknown" "/srv/videos/a.mp4" =
        (bothStarted.1, bothStarted.2,
          (StartStream sampleEnv bothStarted.1 bothStarted.2 "unknown" "/srv/videos/a.mp4").2.2) ∧
      (StartStream sampleEnv bothStarted.1 bothStarted.2 "unknown" "/srv/videos/a.mp4").2.2 =
        some ("unknown stream type: " ++ "unknown") :=
  have h := unknown_name_rejected sampleEnv bothStarted.1 bothStarted.2 "unknown"
    "/srv/videos/a.mp4" (by decide) (by decide)
  ⟨by decide, by decide, h.1, h.2.2.1 "/srv/videos/a.mp4" "/srv" rfl (by decide) rfl⟩

/-- Instance of C7 as amended: a clean close, and a close whose first stop fails. -/
theorem close_idle_or_first_failure_witness :
    (Close bothStarted.1 bothStarted.2).2.2 = .returned none ∧
      ((Close bothStarted.1 bothStarted.2).1.playStream.isActive = false ∧
        (Close bothStarted.1 bothStarted.2).1.pushStream.isActive = false) ∧
      (StopStream playExited.1 playExited.2 "play").2.2 =
        some "failed to kill ffmpeg: os: process already finished" ∧
      Close playExited.1 playExited.2 =
        (playExited.1, playExited.2,
          .returned (some "failed to kill ffmpeg: os: process already finished")) :=
  ⟨by decide, (close_idle_or_first_failure bothStarted.1 bothStarted.2).1 (by decide),
    by decide,
    (close_idle_or_first_failure playExited.1 playExited.2).2 _ (by decide)⟩

/-! ## Closing twice -/

theorem close_ok_shape (sm : StreamManager) (sys : Sys)
    (h : (Close sm sys).2.2 = .returned none) :
    (Close sm sys).1.playStream.isActive = false ∧
      (Close sm sys).1.pushStream.isActive = false ∧
      (Close sm sys).1.stopChanClosed = true := by
  cases h1 : StopStream sm sys "play" with
  | mk sm1 r1 =>
    obtain ⟨sys1, e1⟩ := r1
    cases e1 with
    | some e => simp [Close, h1] at h
    | none =>
      have p1 : sm1.playStream.isActive = false := by
        have := stop_ok_idle sm sys .play (by simp [Which.name, h1])
        simpa [Which.name, h1, StreamManager.get] using this
      cases h2 : StopStream sm1 sys1 "push" with
      | mk sm2 r2 =>
        obtain ⟨sys2, e2⟩ := r2
        cases e2 with
        | some e => simp [Close, h1, h2] at h
        | none =>
          have p2 : sm2.pushStream.isActive = false := by
            have := stop_ok_idle sm1 sys1 .push (by simp [Which.name, h2])
            simpa [Which.name, h2, StreamManager.get] using this
          have p3 : sm2.playStream.isActive = false := by
            have := stop_push_keeps_play sm1 sys1
            rw [h2] at this
            simp only at this
            rw [this]
            exact p1
          by_cases hc : sm2.stopChanClosed
          · simp [Close, h1, h2, hc] at h
          · simp [Close, h1, h2, hc, p2, p3]

theorem close_when_closed (sm : StreamManager) (sys : Sys)
    (hp : sm.playStream.isActive = false) (hq : sm.pushStream.isActive = false)
    (hc : sm.stopChanClosed = true) :
    Close sm sys = (sm, sys, .panicked "close of closed channel") := by
  have s1 : StopStream sm sys "play" = (sm, sys, none) := stop_idle sm sys .play hp
  have s2 : StopStream sm sys "push" = (sm, sys, none) := stop_idle sm sys .push hq
  simp [Close, s1, s2, hc]

theorem munmap_twice (env : Backend.FileEnv) (ms : Backend.MapSys) (data : Backend.Slice)
    (h : (Backend.Munmap env ms data).2 = none) :
    Backend.Munmap env (Backend.Munmap env ms data).1 data =
      ((Backend.Munmap env ms data).1, some "invalid argument") := by
  by_cases h0 : data.len = 0 ∨ data.len ≠ data.cap
  · simp [Backend.Munmap, h0] at h
  · cases hf : ms.active.find? (fun b => b.key = data.key) with
    | none => simp [Backend.Munmap, h0, hf] at h
    | some b =>
      by_cases ha : b.addr ≠ data.addr
      · simp [Backend.Munmap, h0, hf, ha] at h
      · cases hm : env.munmapErr b.addr with
        | some e => simp [Backend.Munmap, h0, hf, ha, hm] at h
        | none =>
          have hnone : (ms.active.filter (fun c => c.key ≠ data.key)).find?
              (fun b => b.key = data.key) = none := by
            rw [List.find?_eq_none]
            intro c hc
            simpa using (List.mem_filter.1 hc).2
          have e1 : Backend.Munmap env ms data =
              ({ ms with active := ms.active.filter (fun c => c.key ≠ data.key) }, none) := by
            simp [Backend.Munmap, h0, hf, ha, hm]
          rw [e1]
          simp only [Backend.Munmap, h0, hnone, if_false]

/-- Against C11 as stated: a second `Close` right after a successful one does not
return success. In package `stream` it panics on the closed stop channel; in
package `backend` it returns the invalid-argument error of the second unmapping. -/
theorem second_close_counterexample :
    (Close bothStarted.1 bothStarted.2).2.2 = .returned none ∧
      (Close (Close bothStarted.1 bothStarted.2).1 (Close bothStarted.1 bothStarted.2).2.1).2.2 =
        .panicked "close of closed channel" ∧
      Backend.NewStreamManager Backend.sampleFileEnv Backend.noMappings "/srv/videos/a.mp4" =
        (Backend.sampleMapped, .ok Backend.sampleManager) ∧
      (Backend.Close Backend.sampleFileEnv Backend.sampleManager Backend.sampleMapped).2.2 =
        none ∧
      (Backend.Close Backend.sampleFileEnv
        (Backend.Close Backend.sampleFileEnv Backend.sampleManager Backend.sampleMapped).1
        (Backend.Close Backend.sampleFileEnv Backend.sampleManager Backend.sampleMapped).2.1).2.2 =
        some "invalid argument" :=
  ⟨by decide, by decide, rfl, by decide, by decide⟩

/-- C11, as amended: `Close` is not idempotent. On a coordinator whose `Close`
has just returned success, a second `Close` does not return success: in package
`stream` it panics closing the already closed stop channel, and in package
`backend` it returns the invalid-argument error of the second `Munmap`. In both
the second call changes no state, so the stop channel, respectively the mapped
buffer, is not released a second time. -/
theorem second_close_fails (sm : StreamManager) (sys : Sys) (env : Backend.FileEnv)
    (bm : Backend.StreamManager) (ms : Backend.MapSys) :
    ((Close sm sys).2.2 = .returned none →
        Close (Close sm sys).1 (Close sm sys).2.1 =
          ((Close sm sys).1, (Close sm sys).2.1, .panicked "close of closed channel")) ∧
      ((Backend.Close env bm ms).2.2 = none →
        Backend.Close env (Backend.Close env bm ms).1 (Backend.Close env bm ms).2.1 =
          ((Backend.Close env bm ms).1, (Backend.Close env bm ms).2.1,
            some "invalid argument")) := by
  constructor
  · intro h
    obtain ⟨hp, hq, hc⟩ := close_ok_shape sm sys h
    exact close_when_closed _ _ hp hq hc
  · intro h
    have key := munmap_twice env ms bm.buffer.data h
    simp only [Backend.Close]
    rw [key]

/-- Instance of C11 as amended: both managers closed twice in a row. -/
theorem second_close_fails_witness :
    (Close bothStarted.1 bothStarted.2).2.2 = .returned none ∧
      Close (Close bothStarted.1 bothStarted.2).1 (Close bothStarted.1 bothStarted.2).2.1 =
        ((Close bothStarted.1 bothStarted.2).1, (Close bothStarted.1 bothStarted.2).2.1,
          .panicked "close of closed channel") ∧
      (Backend.Close Backend.sampleFileEnv Backend.sampleManager Backend.sampleMapped).2.2 =
        none ∧
      Backend.Close Backend.sampleFileEnv
          (Backend.Close Backend.sampleFileEnv Backend.sampleManager Backend.sampleMapped).1
          (Backend.Close Backend.sampleFileEnv Backend.sampleManager Backend.sampleMapped).2.1 =
        ((Backend.Close Backend.sampleFileEnv Backend.sampleManager Backend.sampleMapped).1,
          (Backend.Close Backend.sampleFileEnv Backend.sampleManager Backend.sampleMapped).2.1,
          some "invalid argument") :=
  ⟨by decide,
    (second_close_fails bothStarted.1 bothStarted.2 Backend.sampleFileEnv Backend.sampleManager
      Backend.sampleMapped).1 (by decide),
    by decide,
    (second_close_fails bothStarted.1 bothStarted.2 Backend.sampleFileEnv Backend.sampleManager
      Backend.sampleMapped).2 (by decide)⟩

end HLS
